import Mathlib

/-!
Verification of the risk/performance metrics engine of the
`inetbfa-data-conversion` repository, i.e. the module
`backtest/zipline/finance/risk/risk.py`.

Shallow embedding conventions:

* Calendar dates are day numbers (`Nat`).  `choose_treasury` normalizes
  `end_date` to midnight (`end_date.replace(hour=0, ...)`); at day
  granularity this normalization is the identity, so `end_day = end_date`.
* A yield curve (`treasury_curves`, a pandas frame indexed by date with a
  `Yield` column) is a `List (Nat × Option ℚ)` sorted by strictly
  increasing date; `none` is a missing (`None`) yield, matching the
  code's `rate is not None` checks.
* The trading-calendar collaborator
  `trading.environment.trading_day_distance(dt, end_date)` is an external
  service, modelled as a parameter `cal : Nat → Nat → Option ℤ`
  (`none` = unknown distance).
* Floats are embedded as exact rationals; the not-a-number sentinel
  (`np.nan`) is a dedicated constructor of `RVal`.
* Python exceptions are `Except RiskError`:
  `Exception("No rate for end date = ...")` is `.dataUnavailable`
  carrying the requested end date that the message names, the
  `assert tdd >= 0` failure is `.invariantViolation`, and the `NameError`
  produced at risk.py:221 — the stale-warning branch formats its message
  with `term=treasury_duration`, a name defined nowhere in the module —
  is `.nameError`.
-/

/-- A float result that may be the not-a-number sentinel (`np.nan`). -/
inductive RVal where
  | nan : RVal
  | val : ℚ → RVal
deriving DecidableEq, Repr

/-- Errors raised by the treasury lookup (see module conventions above). -/
inductive RiskError where
  | dataUnavailable : Nat → RiskError
  | invariantViolation : RiskError
  | nameError : RiskError
deriving DecidableEq, Repr

/-- Modelled from the spec: the shared tolerance epsilon.  The utility
`quantifi.utils.math_utils.tolerant_equals` is imported by risk.py but its
source is not part of this repository; the spec fixes only that
"tolerance-equal" means "magnitude below a small fixed epsilon". -/
def tolerance : ℚ := 1 / 1000000

/-- Modelled from the spec: `zp_math.tolerant_equals a b` — true iff the
magnitude of `a - b` is within the shared `tolerance`. -/
def tolerant_equals (a b : ℚ) : Bool :=
  decide (|a - b| ≤ tolerance)

/-- risk.py `sharpe_ratio`: nan when the volatility is tolerance-equal
to 0, otherwise `(algorithm_return - treasury_return) / volatility`. -/
def sharpe_ratio (algorithm_volatility algorithm_return treasury_return : ℚ) : RVal :=
  if tolerant_equals algorithm_volatility 0 then RVal.nan
  else RVal.val ((algorithm_return - treasury_return) / algorithm_volatility)

/-- risk.py `sortino_ratio`: 0.0 when `mar` is tolerance-equal to 0,
otherwise `(algorithm_period_return - treasury_period_return) / mar`. -/
def sortino_ratio (algorithm_period_return treasury_period_return mar : ℚ) : ℚ :=
  if tolerant_equals mar 0 then 0
  else (algorithm_period_return - treasury_period_return) / mar

/-- `numpy.round(·, 8)` applied to one entry: round to 8 decimal places.
(The tie-breaking direction of the rounding is immaterial to the
properties verified here.) -/
def round8 (q : ℚ) : ℚ :=
  (round (q * 100000000) : ℚ) / 100000000

/-- `np.mean l`. -/
def npMean (l : List ℚ) : ℚ :=
  l.sum / l.length

/-- The square of `np.std(l, ddof=1)`: sample variance with divisor
`n - 1` (only ever applied to lists of length ≥ 2). -/
def sampleVar (l : List ℚ) : ℚ :=
  ((l.map (fun x => (x - npMean l) ^ 2)).sum) / ((l.length : ℚ) - 1)

/-- risk.py `downside_risk` lines 97-100: round both series to 8 places,
keep the paired positions where the rounded algo return is strictly below
the rounded mean return, and take the differences there.  The element-wise
numpy operations on the two equal-length arrays are the operations on the
zipped list. -/
def downside_diff (algorithm_returns mean_returns : List ℚ) : List ℚ :=
  (algorithm_returns.zip mean_returns).filterMap fun p =>
    if round8 p.1 < round8 p.2 then some (round8 p.1 - round8 p.2) else none

/-- risk.py `downside_risk`: 0.0 with at most one qualifying point, else
`np.std(downside_diff, ddof=1) * math.sqrt(normalization_factor)`. -/
noncomputable def downside_risk
    (algorithm_returns mean_returns : List ℚ) (normalization_factor : ℚ) : ℝ :=
  if (downside_diff algorithm_returns mean_returns).length ≤ 1 then 0
  else Real.sqrt (sampleVar (downside_diff algorithm_returns mean_returns)) *
    Real.sqrt (normalization_factor : ℝ)

/-- `algorithm_returns - benchmark_returns`, the element-wise difference of
the two equal-length series in risk.py `information_ratio` line 139. -/
def info_relative (algorithm_returns benchmark_returns : List ℚ) : List ℚ :=
  (algorithm_returns.zip benchmark_returns).map fun p => p.1 - p.2

/-- `relative_returns.std(ddof=1)`: not-a-number (`none`) on fewer than two
points (numpy's 0/0), otherwise the square root of the sample variance. -/
noncomputable def np_std_sample (l : List ℚ) : Option ℝ :=
  if l.length ≤ 1 then none else some (Real.sqrt (sampleVar l))

open Classical in
/-- risk.py `information_ratio`: 0.0 when the sample deviation of the
element-wise difference is not-a-number or tolerance-equal to 0, otherwise
`np.mean(relative_returns) / relative_deviation`. -/
noncomputable def information_ratio
    (algorithm_returns benchmark_returns : List ℚ) : ℝ :=
  match np_std_sample (info_relative algorithm_returns benchmark_returns) with
  | none => 0
  | some dev =>
      if |dev - 0| ≤ (tolerance : ℝ) then 0
      else (npMean (info_relative algorithm_returns benchmark_returns) : ℝ) / dev

/-- risk.py `alpha`. -/
def alpha (algorithm_period_return treasury_period_return
    benchmark_period_returns beta : ℚ) : ℚ :=
  algorithm_period_return -
    (treasury_period_return + beta *
      (benchmark_period_returns - treasury_period_return))

/-! ## Treasury selection (risk.py lines 178-234) -/

/-- risk.py `get_treasury_rate`: `treasury_curves.loc[day, 'Yield']`.
Only called on days known to be in the curve's index; lookup is the first
entry with the given date. -/
def get_treasury_rate (treasury_curves : List (Nat × Option ℚ)) (day : Nat) :
    Option ℚ :=
  (treasury_curves.find? fun p => p.1 == day).bind fun p => p.2

/-- risk.py `search_day_distance`: ask the trading-calendar collaborator
for the distance from `dt` to `end_date`; `None` passes through, and the
`assert tdd >= 0` turns a negative answer into an error. -/
def search_day_distance (cal : Nat → Nat → Option ℤ) (end_date dt : Nat) :
    Except RiskError (Option ℤ) :=
  match cal dt end_date with
  | none => Except.ok none
  | some tdd =>
      if 0 ≤ tdd then Except.ok (some tdd) else Except.error RiskError.invariantViolation

/-- The exact-match step (risk.py lines 193-197): if the normalized end day
is in the curve's index with a non-`None` rate, it is the resolved day. -/
def exact_day (treasury_curves : List (Nat × Option ℚ)) (end_day : Nat) :
    Option Nat :=
  if (treasury_curves.map Prod.fst).contains end_day &&
      (get_treasury_rate treasury_curves end_day).isSome
  then some end_day else none

/-- The candidate days scanned by the fallback loop (risk.py lines 202-206):
`i = search_days.searchsorted(end_day)` on the sorted index counts the dates
strictly before `end_day`, and `search_days[i - 1::-1]` walks indices
`i-1, i-2, ..., 0`.  When `i = 0` the Python slice is `[-1::-1]`, which
starts from the LAST index: the loop then walks the whole curve from its
latest date backwards. -/
def fallback_days (dates : List Nat) (end_day : Nat) : List Nat :=
  if dates.countP (fun d => decide (d < end_day)) = 0 then dates.reverse
  else (dates.take (dates.countP fun d => decide (d < end_day))).reverse

/-- The stale-warning guard (risk.py lines 215-216):
`(search_dist is None or search_dist > 1) and
 search_days[0] <= end_day <= search_days[-1]`.
Only evaluated when the fallback loop found a day, so the curve is
non-empty there and the `headD`/`getLastD` defaults are never read. -/
def warn_condition (dates : List Nat) (end_day : Nat) (dist : Option ℤ) : Bool :=
  (match dist with
   | none => true
   | some k => decide (1 < k)) &&
  decide (dates.headD 0 ≤ end_day) && decide (end_day ≤ dates.getLastD 0)

/-- The return step (risk.py lines 225-230): scale by
`(td.days + 1) / 365` when compounding, where `td = end_date - start_date`
in calendar days. -/
def compound_rate (rate : ℚ) (start_date end_date : Nat) (compound : Bool) : ℚ :=
  if compound then rate * (((end_date : ℚ) - (start_date : ℚ)) + 1) / 365
  else rate

/-- risk.py `choose_treasury` (the spec's `select_rate`).  Exact match
first; otherwise the fallback scan over `fallback_days`; a found day gets
its distance checked (possible `invariantViolation`) and then the
stale-warning guard — whose message formatting at risk.py:221 reads the
undefined name `treasury_duration` and therefore raises a `NameError`
before anything is logged; if no day is found the lookup fails with
`dataUnavailable` naming the requested end date. -/
def choose_treasury (cal : Nat → Nat → Option ℤ)
    (treasury_curves : List (Nat × Option ℚ))
    (start_date end_date : Nat) (compound : Bool) : Except RiskError ℚ :=
  match exact_day treasury_curves end_date with
  | some day =>
      Except.ok (compound_rate ((get_treasury_rate treasury_curves day).getD 0)
        start_date end_date compound)
  | none =>
      match (fallback_days (treasury_curves.map Prod.fst) end_date).find?
          (fun d => (get_treasury_rate treasury_curves d).isSome) with
      | none => Except.error (RiskError.dataUnavailable end_date)
      | some day =>
          match search_day_distance cal end_date day with
          | Except.error e => Except.error e
          | Except.ok dist =>
              if warn_condition (treasury_curves.map Prod.fst) end_date dist then
                Except.error RiskError.nameError
              else Except.ok (compound_rate
                ((get_treasury_rate treasury_curves day).getD 0)
                start_date end_date compound)

deriving instance DecidableEq for Except

/-! ## Theorems -/

/-- C1 (code-bug evaluation): the curve holds only day 5 with yield 0.05 and
the end date is day 3, so no curve date at or before the end date carries a
yield; the claim demands `dataUnavailable 3`.  Instead, `searchsorted`
returns `i = 0`, the Python slice `search_days[i - 1::-1]` wraps around to
the END of the index, the loop resolves the future day 5, and (the calendar
distance being unknown and the warning guard failing) its rate 0.05 is
returned. -/
theorem choose_treasury_no_prior_rate_eval :
    choose_treasury (fun _ _ => none) [(5, some (1/20))] 3 3 false =
      Except.ok (1/20) := by rfl

/-- C2 (code-bug evaluation): curve with yields on days 1 and 3, end date
day 2, calendar distance 2.  The fallback resolves day 1 and the
stale-warning guard fires, but the warning branch formats its message with
the undefined name `treasury_duration` (risk.py:221), so a `NameError`
interrupts the computation instead of a logged warning plus a normal
return of 0.05. -/
theorem choose_treasury_warning_interrupts_eval :
    choose_treasury (fun _ _ => some 2)
      [(1, some (1/20)), (3, some (51/1000))] 1 2 false =
      Except.error RiskError.nameError := by rfl

/-- C3 (counterexample): for the one-entry curve `{day 1 ↦ 0.05}` and end
date day 2 — strictly after the curve's last entry — `choose_treasury`
returns the rate 0.05 (`Except.ok`), refuting the claim that it raises
`DataUnavailable` on every end date after the curve's last entry. -/
theorem choose_treasury_past_last_counterexample :
    choose_treasury (fun _ _ => some 1) [(1, some (1/20))] 1 2 false =
      Except.ok (1/20) := by rfl

/-- C4 (code-bug evaluation): the spec's scenario — curve with 5% on day 1
(2020-01-01) and 5.1% on day 3 (2020-01-03), `start = day 1`,
`end = day 2` (2020-01-02), `compound = False` — with the trading-day
distance unknown.  The claim says a staleness warning is emitted only if
the distance EXCEEDS 1, so here 0.05 should be returned without warning;
the code enters the warning branch on an unknown distance as well and then
raises `NameError` from the undefined `treasury_duration`. -/
theorem choose_treasury_scenario_unknown_distance_eval :
    choose_treasury (fun _ _ => none)
      [(1, some (1/20)), (3, some (51/1000))] 1 2 false =
      Except.error RiskError.nameError := by rfl

/-- Supporting evaluation for the spec's treasury scenario: when the
calendar reports a distance of exactly 1 trading day, the fallback resolves
day 1 (the nearest prior date) and returns 0.05 with no warning, exactly as
the scenario describes. -/
theorem choose_treasury_scenario_distance_one :
    choose_treasury (fun _ _ => some 1)
      [(1, some (1/20)), (3, some (51/1000))] 1 2 false =
      Except.ok (1/20) := by rfl

/-- C5 (counterexample): curve with entries on days 1 and 4, end date
day 2, calendar distance 2.  The fallback resolves day 1 — the curve's
MINIMUM, hence not strictly inside the min/max range — so the claim says
the staleness warning must be suppressed and 0.03 returned; the code's
guard tests `search_days[0] <= end_day <= search_days[-1]` on the END day
instead, the warning branch fires, and the undefined `treasury_duration`
turns it into a `NameError`. -/
theorem choose_treasury_warn_at_min_counterexample :
    choose_treasury (fun _ _ => some 2)
      [(1, some (3/100)), (4, some (31/1000))] 1 2 false =
      Except.error RiskError.nameError := by rfl

/-- C6: whenever the volatility's magnitude exceeds the shared tolerance,
`sharpe_ratio` equals `(algorithm_return - treasury_return) / volatility`
and is linear in the excess return `a - t`; whenever the volatility is
within tolerance of 0, it returns the not-a-number sentinel. -/
theorem sharpe_ratio_linear_and_nan (v a t a' t' k : ℚ) :
    (tolerance < |v| →
      sharpe_ratio v a t = RVal.val ((a - t) / v) ∧
      (a' - t' = k * (a - t) →
        sharpe_ratio v a' t' = RVal.val (k * ((a - t) / v)))) ∧
    (|v| ≤ tolerance → sharpe_ratio v a t = RVal.nan) := by
  constructor
  · intro hv
    have hne : tolerant_equals v 0 = false := by
      simp only [tolerant_equals, sub_zero, decide_eq_false_iff_not, not_le]
      exact hv
    refine ⟨by simp [ sharpe_ratio, hne], fun hlin => ?_⟩
    simp only [ sharpe_ratio, hne, Bool.false_eq_true, if_false, hlin,
      mul_div_assoc]
  · intro hv
    have heq : tolerant_equals v 0 = true := by
      simp only [tolerant_equals, sub_zero, decide_eq_true_eq]
      exact hv
    simp [ sharpe_ratio, heq]

/-- C6 witness: at volatility 1 the ratio is the excess return over 1 and
scales linearly (4 − 0 = 2 · (3 − 1)); at volatility 1/2000000 — within the
1/1000000 tolerance of 0 — the result is the nan sentinel. -/
theorem sharpe_ratio_linear_and_nan_witness :
    sharpe_ratio 1 3 1 = RVal.val ((3 - 1) / 1) ∧
    sharpe_ratio 1 4 0 = RVal.val (2 * ((3 - 1) / 1)) ∧
    sharpe_ratio (1/2000000) 3 1 = RVal.nan := by
  refine ⟨?_, ?_, ?_⟩
  · exact (( sharpe_ratio_linear_and_nan 1 3 1 4 0 2).1 (by norm_num [tolerance])).1
  · exact (( sharpe_ratio_linear_and_nan 1 3 1 4 0 2).1
      (by norm_num [tolerance])).2 (by norm_num)
  · exact ( sharpe_ratio_linear_and_nan (1/2000000) 3 1 4 0 2).2
      (by rw [abs_of_pos (by norm_num)]; norm_num [tolerance])

/-- C7: `sortino_ratio r t 0` is exactly 0, while `sharpe_ratio` with a
volatility tolerance-equal to 0 is the nan sentinel, and the two outcomes
are distinct — the zero-MAR and zero-volatility policies are not
unified. -/
theorem sortino_zero_mar_vs_sharpe_nan (r t v a u : ℚ)
    (hv : tolerant_equals v 0 = true) :
    sortino_ratio r t 0 = 0 ∧ sharpe_ratio v a u = RVal.nan ∧
    RVal.nan ≠ RVal.val ( sortino_ratio r t 0) := by
  have h0 : tolerant_equals 0 0 = true := by
    simp only [tolerant_equals, sub_zero, abs_zero, decide_eq_true_eq]
    norm_num [tolerance]
  exact ⟨by simp [ sortino_ratio, h0], by simp [ sharpe_ratio, hv],
    fun h => RVal.noConfusion h⟩

/-- C7 witness: instantiated at `r = 1`, `t = 2`, volatility 0. -/
theorem sortino_zero_mar_vs_sharpe_nan_witness :
    sortino_ratio 1 2 0 = 0 ∧ sharpe_ratio 0 5 3 = RVal.nan ∧
    RVal.nan ≠ RVal.val ( sortino_ratio 1 2 0) :=
  sortino_zero_mar_vs_sharpe_nan 1 2 0 5 3
    (by simp only [tolerant_equals, sub_zero, abs_zero, decide_eq_true_eq]
        norm_num [tolerance])

/-- C9: whenever the trading-calendar collaborator reports a known negative
distance, `search_day_distance`'s `assert tdd >= 0` fails — the result is
the InvariantViolation error, never a clamped or accepted value. -/
theorem search_day_distance_negative (cal : Nat → Nat → Option ℤ)
    (end_date dt : Nat) (k : ℤ) (hk : cal dt end_date = some k)
    (hneg : k < 0) :
    search_day_distance cal end_date dt =
      Except.error RiskError.invariantViolation := by
  unfold search_day_distance
  rw [hk]
  exact if_neg (not_le.mpr hneg)

/-- C9 witness: a calendar that always answers −1 makes the lookup fail
with InvariantViolation. -/
theorem search_day_distance_negative_witness :
    search_day_distance (fun _ _ => some (-1)) 3 5 =
      Except.error RiskError.invariantViolation :=
  search_day_distance_negative (fun _ _ => some (-1)) 3 5 (-1) rfl (by norm_num)

/-- Helper: the number of qualifying downside points equals the count of
paired positions whose rounded algo return lies below the rounded mean
return. -/
theorem downside_diff_length (xs ms : List ℚ) :
    (downside_diff xs ms).length =
      (xs.zip ms).countP (fun p => decide (round8 p.1 < round8 p.2)) := by
  unfold downside_diff
  induction xs.zip ms with
  | nil => rfl
  | cons p l ih =>
      by_cases h : round8 p.1 < round8 p.2 <;>
        simp [List.filterMap_cons, h, List.countP_cons, ih]

/-- Helper: `np.mean` only depends on the multiset of entries. -/
theorem npMean_perm {l₁ l₂ : List ℚ} (h : l₁.Perm l₂) :
    npMean l₁ = npMean l₂ := by
  unfold npMean
  rw [h.sum_eq, h.length_eq]

/-- Helper: the sample variance only depends on the multiset of entries. -/
theorem sampleVar_perm {l₁ l₂ : List ℚ} (h : l₁.Perm l₂) :
    sampleVar l₁ = sampleVar l₂ := by
  unfold sampleVar
  rw [npMean_perm h, (h.map _).sum_eq, h.length_eq]

/-- C8: `downside_risk` is invariant under reordering the paired input
series identically (stated as: permuting the zipped pair list), and it
returns exactly 0 whenever fewer than two paired positions have rounded
algo return below rounded mean return. -/
theorem downside_risk_perm_and_zero :
    (∀ (xs ms xs' ms' : List ℚ) (n : ℚ),
      (xs.zip ms).Perm (xs'.zip ms') →
      downside_risk xs ms n = downside_risk xs' ms' n) ∧
    (∀ (xs ms : List ℚ) (n : ℚ),
      (xs.zip ms).countP (fun p => decide (round8 p.1 < round8 p.2)) ≤ 1 →
      downside_risk xs ms n = 0) := by
  constructor
  · intro xs ms xs' ms' n h
    have hp : (downside_diff xs ms).Perm (downside_diff xs' ms') :=
      h.filterMap _
    unfold downside_risk
    rw [hp.length_eq, sampleVar_perm hp]
  · intro xs ms n h
    have hlen : (downside_diff xs ms).length ≤ 1 := by
      rw [downside_diff_length]; exact h
    unfold downside_risk
    rw [if_pos hlen]

/-- C8 witness: swapping the two paired points of `([1, 3], [2, 2])` leaves
`downside_risk` unchanged, and a pair with a single qualifying downside
point gives exactly 0. -/
theorem downside_risk_perm_and_zero_witness :
    downside_risk [1, 3] [2, 2] 252 = downside_risk [3, 1] [2, 2] 252 ∧
    downside_risk [5, 3] [2, 2] 252 = 0 := by
  constructor
  · refine downside_risk_perm_and_zero.1 [1, 3] [2, 2] [3, 1] [2, 2] 252 ?_
    simpa using List.Perm.swap ((3 : ℚ), (2 : ℚ)) ((1 : ℚ), (2 : ℚ)) []
  · refine downside_risk_perm_and_zero.2 [5, 3] [2, 2] 252 ?_
    norm_num [List.countP_cons, round8]

/-- Helper: the sum of the negated series is the negated sum. -/
theorem sum_map_neg_rat (l : List ℚ) : (l.map fun x => -x).sum = -l.sum := by
  induction l with
  | nil => simp
  | cons x xs ih => simp [ih, neg_add, add_comm]

/-- Helper: `np.mean` of the negated series is the negated mean. -/
theorem npMean_map_neg (l : List ℚ) :
    npMean (l.map fun x => -x) = -npMean l := by
  unfold npMean
  rw [sum_map_neg_rat, List.length_map, neg_div]

/-- Helper: the sample variance is unchanged by negating every entry. -/
theorem sampleVar_map_neg (l : List ℚ) :
    sampleVar (l.map fun x => -x) = sampleVar l := by
  unfold sampleVar
  rw [npMean_map_neg, List.map_map, List.length_map]
  have hf : ((fun x => (x - -npMean l) ^ 2) ∘ fun x : ℚ => -x) =
      fun x : ℚ => (x - npMean l) ^ 2 := by
    funext x
    simp only [Function.comp_apply]
    ring
  rw [hf]

/-- Helper: swapping the two series negates the element-wise difference. -/
theorem info_relative_swap (xs ys : List ℚ) :
    info_relative ys xs = (info_relative xs ys).map fun x => -x := by
  unfold info_relative
  rw [← List.zip_swap xs ys, List.map_map, List.map_map]
  congr 1
  funext p
  simp only [Function.comp_apply, Prod.fst_swap, Prod.snd_swap]
  ring

/-- Helper: the sample deviation is unchanged by negating every entry. -/
theorem np_std_sample_map_neg (l : List ℚ) :
    np_std_sample (l.map fun x => -x) = np_std_sample l := by
  unfold np_std_sample
  rw [List.length_map, sampleVar_map_neg]

/-- C10: for equal-length series, `information_ratio` is antisymmetric in
its two arguments, and consequently one order vanishes iff the other does
(in particular both orders give 0 in the degenerate nan/zero-deviation
branch). -/
theorem information_ratio_antisymm (xs ys : List ℚ)
    (_h : xs.length = ys.length) :
    information_ratio xs ys = - information_ratio ys xs ∧
    ( information_ratio xs ys = 0 ↔ information_ratio ys xs = 0) := by
  have key : information_ratio ys xs = - information_ratio xs ys := by
    unfold information_ratio
    rw [info_relative_swap, np_std_sample_map_neg, npMean_map_neg]
    cases hnp : np_std_sample (info_relative xs ys) with
    | none => simp
    | some dev =>
        simp only [sub_zero]
        by_cases hd : |dev| ≤ (tolerance : ℝ)
        · rw [if_pos hd, if_pos hd, neg_zero]
        · rw [if_neg hd, if_neg hd]
          push_cast
          rw [neg_div]
  refine ⟨by rw [key, neg_neg], ?_⟩
  rw [key, neg_eq_zero]

/-- C10 witness: instantiated at the equal-length pair `[1, 2]`, `[2, 1]`. -/
theorem information_ratio_antisymm_witness :
    information_ratio [1, 2] [2, 1] = - information_ratio [2, 1] [1, 2] ∧
    ( information_ratio [1, 2] [2, 1] = 0 ↔
      information_ratio [2, 1] [1, 2] = 0) :=
  information_ratio_antisymm [1, 2] [2, 1] rfl

/-- Helper: on a curve with strictly increasing dates, looking the date of a
stored entry up returns exactly that entry's yield. -/
theorem get_treasury_rate_of_mem (curve : List (Nat × Option ℚ))
    (p : Nat × Option ℚ) (hp : p ∈ curve)
    (hs : List.Pairwise (fun a b => a.1 < b.1) curve) :
    get_treasury_rate curve p.1 = p.2 := by
  induction curve with
  | nil => cases hp
  | cons q rest ih =>
      rcases List.mem_cons.mp hp with rfl | hp'
      · unfold get_treasury_rate
        rw [List.find?_cons_of_pos _ (by simp)]
        rfl
      · have hlt : q.1 < p.1 := (List.pairwise_cons.mp hs).1 p hp'
        have hne : (q.1 == p.1) = false :=
          beq_eq_false_iff_ne.mpr (Nat.ne_of_lt hlt)
        unfold get_treasury_rate at ih ⊢
        simp only [List.find?_cons, hne]
        exact ih hp' (List.pairwise_cons.mp hs).2

/-- Helper: if every yield of the curve is missing, every lookup is
missing. -/
theorem get_treasury_rate_none (curve : List (Nat × Option ℚ))
    (hall : ∀ p ∈ curve, p.2 = none) (d : Nat) :
    get_treasury_rate curve d = none := by
  unfold get_treasury_rate
  cases hf : curve.find? fun p => p.1 == d with
  | none => rfl
  | some q => simp [hall q (List.mem_of_find?_eq_some hf)]

/-- C3 (amended): for a non-empty, strictly date-sorted curve, a calendar
that reports only non-negative distances, and an end date strictly after
every curve entry, `choose_treasury` does NOT generally raise
`DataUnavailable`: it returns a rate whenever some entry carries a
non-missing yield (the out-of-coverage guard suppresses the warning
branch), and raises `DataUnavailable` naming the requested end date
exactly in the remaining case, when every yield is missing. -/
theorem choose_treasury_after_last_amended
    (cal : Nat → Nat → Option ℤ) (curve : List (Nat × Option ℚ))
    (start_date end_date : Nat) (compound : Bool)
    (hne : curve ≠ [])
    (hs : List.Pairwise (fun a b => a.1 < b.1) curve)
    (hcal : ∀ a b k, cal a b = some k → 0 ≤ k)
    (hafter : ∀ p ∈ curve, p.1 < end_date) :
    ((∃ p ∈ curve, p.2.isSome) →
      ∃ r, choose_treasury cal curve start_date end_date compound =
        Except.ok r) ∧
    ((∀ p ∈ curve, p.2 = none) →
      choose_treasury cal curve start_date end_date compound =
        Except.error (RiskError.dataUnavailable end_date)) := by
  have hdates : ∀ d ∈ curve.map Prod.fst, d < end_date := by
    intro d hd
    rcases List.mem_map.mp hd with ⟨p, hp, rfl⟩
    exact hafter p hp
  have hnotmem : end_date ∉ curve.map Prod.fst :=
    fun hmem => lt_irrefl _ (hdates _ hmem)
  have hexact : exact_day curve end_date = none := by
    unfold exact_day
    have hc : ((curve.map Prod.fst).contains end_date) = false := by
      simp [List.elem_eq_mem, hnotmem]
    rw [hc, Bool.false_and, if_neg (by simp)]
  have hcount : (curve.map Prod.fst).countP (fun d => decide (d < end_date)) =
      (curve.map Prod.fst).length := by
    rw [List.countP_eq_length]
    intro d hd
    simpa using hdates d hd
  have hlen0 : (curve.map Prod.fst).length ≠ 0 := by
    simpa [List.length_eq_zero] using hne
  have hfb : fallback_days (curve.map Prod.fst) end_date =
      (curve.map Prod.fst).reverse := by
    unfold fallback_days
    rw [hcount, if_neg hlen0, List.take_length]
  constructor
  · rintro ⟨p, hp, hpsome⟩
    have hex : ∃ d ∈ (curve.map Prod.fst).reverse,
        ((get_treasury_rate curve d).isSome) = true := by
      refine ⟨p.1, ?_, ?_⟩
      · rw [List.mem_reverse]
        exact List.mem_map.mpr ⟨p, hp, rfl⟩
      · rw [get_treasury_rate_of_mem curve p hp hs]
        exact hpsome
    have hfindsome : ((curve.map Prod.fst).reverse.find?
        fun d => (get_treasury_rate curve d).isSome).isSome := by
      rw [List.find?_isSome]
      exact hex
    obtain ⟨day, hday⟩ := Option.isSome_iff_exists.mp hfindsome
    have hdaylt : day < end_date := by
      apply hdates
      rw [← List.mem_reverse]
      exact List.mem_of_find?_eq_some hday
    obtain ⟨dist, hdist⟩ : ∃ dist,
        search_day_distance cal end_date day = Except.ok dist := by
      unfold search_day_distance
      cases hc : cal day end_date with
      | none => exact ⟨none, rfl⟩
      | some k => exact ⟨some k, by simp [hcal day end_date k hc]⟩
    have hlastlt : (curve.map Prod.fst).getLastD 0 < end_date := by
      apply hdates
      have hmapne : curve.map Prod.fst ≠ [] := by
        simpa [List.length_eq_zero] using hlen0
      rw [List.getLastD_eq_getLast?, List.getLast?_eq_getLast_of_ne_nil hmapne]
      exact List.getLast_mem hmapne
    have hwarn : warn_condition (curve.map Prod.fst) end_date dist = false := by
      unfold warn_condition
      have hnle : ¬ (end_date ≤ (curve.map Prod.fst).getLastD 0) :=
        not_le.mpr hlastlt
      rw [decide_eq_false hnle, Bool.and_false]
    refine ⟨compound_rate ((get_treasury_rate curve day).getD 0)
      start_date end_date compound, ?_⟩
    simp only [choose_treasury, hexact, hfb, hday, hdist, hwarn,
      Bool.false_eq_true, if_false]
  · intro hall
    have hfindnone : ((curve.map Prod.fst).reverse.find?
        fun d => (get_treasury_rate curve d).isSome) = none := by
      rw [List.find?_eq_none]
      intro d _
      simp [get_treasury_rate_none curve hall d]
    simp only [choose_treasury, hexact, hfb, hfindnone]

/-- C3 amended witness: the one-entry curve `{day 2 ↦ 0.06}` with end date
day 4 (after the last entry) returns a rate; were all yields missing, the
same input would raise `DataUnavailable 4`. -/
theorem choose_treasury_after_last_amended_witness :
    ((∃ p ∈ [((2 : Nat), some ((3 : ℚ)/50))], p.2.isSome) →
      ∃ r, choose_treasury (fun _ _ => some 1) [(2, some (3/50))] 2 4 false =
        Except.ok r) ∧
    ((∀ p ∈ [((2 : Nat), some ((3 : ℚ)/50))], p.2 = none) →
      choose_treasury (fun _ _ => some 1) [(2, some (3/50))] 2 4 false =
        Except.error (RiskError.dataUnavailable 4)) :=
  choose_treasury_after_last_amended (fun _ _ => some 1) [(2, some (3/50))]
    2 4 false (by simp) (by simp)
    (fun a b k h => by injection h with h; omega)
    (by intro p hp; rw [List.mem_singleton] at hp; rw [hp]; norm_num)

/-- Helper: the stale-warning guard as a proposition — the distance is
unknown or greater than 1, and the requested end day lies within the
inclusive first-to-last range of the curve's dates. -/
theorem warn_condition_iff (dates : List Nat) (end_day : Nat)
    (dist : Option ℤ) :
    warn_condition dates end_day dist = true ↔
      ((dist = none ∨ ∃ k, dist = some k ∧ 1 < k) ∧
        dates.headD 0 ≤ end_day ∧ end_day ≤ dates.getLastD 0) := by
  unfold warn_condition
  cases dist with
  | none => simp
  | some k => simp [and_assoc]

/-- C5 (amended): in every fallback resolution whose distance check
succeeds, the stale-warning branch — observable as the `NameError` that
its undefined `treasury_duration` raises in place of a logged warning — is
triggered exactly when the distance is unknown or greater than 1 AND the
requested end day lies within the curve's inclusive first-to-last date
range; otherwise the resolved rate is returned.  (The claim's version —
warn only on a known distance > 1 with the resolved date strictly inside
the range — is refuted by `choose_treasury_warn_at_min_counterexample`.) -/
theorem choose_treasury_warn_iff
    (cal : Nat → Nat → Option ℤ) (curve : List (Nat × Option ℚ))
    (start_date end_date : Nat) (compound : Bool) (day : Nat)
    (dist : Option ℤ)
    (hexact : exact_day curve end_date = none)
    (hfind : (fallback_days (curve.map Prod.fst) end_date).find?
        (fun d => (get_treasury_rate curve d).isSome) = some day)
    (hdist : search_day_distance cal end_date day = Except.ok dist) :
    (choose_treasury cal curve start_date end_date compound =
        Except.error RiskError.nameError) ↔
      ((dist = none ∨ ∃ k, dist = some k ∧ 1 < k) ∧
        (curve.map Prod.fst).headD 0 ≤ end_date ∧
        end_date ≤ (curve.map Prod.fst).getLastD 0) := by
  by_cases hw : warn_condition (curve.map Prod.fst) end_date dist = true
  · have hout : choose_treasury cal curve start_date end_date compound =
        Except.error RiskError.nameError := by
      simp only [choose_treasury, hexact, hfind, hdist, hw, if_true]
    exact iff_of_true hout ((warn_condition_iff _ _ _).mp hw)
  · have hw' : warn_condition (curve.map Prod.fst) end_date dist = false :=
      Bool.eq_false_iff.mpr hw
    have hout : choose_treasury cal curve start_date end_date compound =
        Except.ok (compound_rate ((get_treasury_rate curve day).getD 0)
          start_date end_date compound) := by
      simp only [choose_treasury, hexact, hfind, hdist, hw',
        Bool.false_eq_true, if_false]
    refine iff_of_false (fun h => ?_) fun hr =>
      hw ((warn_condition_iff _ _ _).mpr hr)
    rw [hout] at h
    exact Except.noConfusion h

/-- C5 witness: curve on days 1 and 4, end day 2 (inside the inclusive
range 1..4), resolved fallback day 1, known distance 3 > 1: the warning
branch is triggered, matching the right-hand side of the equivalence. -/
theorem choose_treasury_warn_iff_witness :
    (choose_treasury (fun _ _ => some 3)
        [(1, some (3/100)), (4, some (31/1000))] 1 2 false =
      Except.error RiskError.nameError) ↔
      ((some (3 : ℤ) = none ∨ ∃ k, some (3 : ℤ) = some k ∧ 1 < k) ∧
        ([(1, some ((3:ℚ)/100)), (4, some ((31:ℚ)/1000))].map Prod.fst).headD 0
          ≤ 2 ∧
        2 ≤ ([(1, some ((3:ℚ)/100)),
          (4, some ((31:ℚ)/1000))].map Prod.fst).getLastD 0) :=
  choose_treasury_warn_iff (fun _ _ => some 3)
    [(1, some (3/100)), (4, some (31/1000))] 1 2 false 1 (some 3)
    rfl rfl rfl
